import Mathlib

/-!
Verification of the unsupervised decision-tree estimator layer of scikit-tree,
a shallow embedding of `sktree/tree/_classes.py`
(classes `UnsupervisedDecisionTree` and `UnsupervisedObliqueDecisionTree`).

Pure Python logic (the affinity-matrix computation, the criterion table,
the builder selection, the control flow of `fit` / `predict` / `transform`)
is translated directly from the source.  The Cython core (tree builder,
tree traversal `apply`) and the external clustering callable are not part of
the given sources; where a claim depends on them they appear either as
explicit function parameters or as definitions whose doc comment starts
with "Modelled from the spec".
-/

namespace SkTree

/-! ### Affinity matrix: `UnsupervisedDecisionTree._compute_affinity_matrix`

The Python code (`_classes.py` lines 284-307) is

  n_samples = X_leaves.shape[0]
  aff_matrix = np.zeros((n_samples, n_samples), dtype=np.int32)
  for leaf in np.unique(X_leaves):
      samples_in_leaf = np.atleast_1d(np.argwhere(X_leaves == leaf).squeeze())
      aff_matrix[np.ix_(samples_in_leaf, samples_in_leaf)] += 1
  return aff_matrix

We model `X_leaves` as a `List Nat` of length `n_samples` (one leaf id per
sample), the matrix as a function `Nat → Nat → Nat` (meaningful on indices
below `n_samples`, the matrix shape in the code), `np.unique` as `dedup`
(a duplicate-free list of the values present; the loop order is irrelevant
because each step only adds 1 to some entries), and the block increment
`aff_matrix[np.ix_(s, s)] += 1` as a pointwise conditional increment. -/

/-- `X_leaves[i]`: the leaf id of sample `i` (default 0 out of range; all
theorems about the matrix constrain indices to the matrix shape). -/
def leafOf (X_leaves : List Nat) (i : Nat) : Nat := X_leaves.getD i 0

/-- One iteration of the loop body of `_compute_affinity_matrix`: add 1 to
entry `(i, j)` exactly when samples `i` and `j` both lie in leaf `leaf`. -/
def affStep (X_leaves : List Nat) (m : Nat → Nat → Nat) (leaf : Nat) :
    Nat → Nat → Nat :=
  fun i j =>
    if leafOf X_leaves i = leaf ∧ leafOf X_leaves j = leaf then m i j + 1 else m i j

/-- `UnsupervisedDecisionTree._compute_affinity_matrix` (lines 284-307):
start from the zero matrix and, for every distinct leaf value occurring in
`X_leaves`, increment the co-occurrence block of that leaf. -/
def computeAffinityMatrix (X_leaves : List Nat) : Nat → Nat → Nat :=
  X_leaves.dedup.foldl (affStep X_leaves) (fun _ _ => 0)

lemma foldl_affStep_apply (X : List Nat) (L : List Nat) (m : Nat → Nat → Nat)
    (i j : Nat) :
    L.foldl (affStep X) m i j
      = m i j + (if leafOf X i = leafOf X j then L.count (leafOf X i) else 0) := by
  induction L generalizing m with
  | nil => simp
  | cons a L ih =>
    rw [List.foldl_cons, ih]
    simp only [affStep]
    by_cases hij : leafOf X i = leafOf X j
    · rw [if_pos hij, if_pos hij, List.count_cons]
      simp only [beq_iff_eq]
      by_cases ha : leafOf X i = a
      · rw [if_pos ⟨ha, hij.symm.trans ha⟩, if_pos ha.symm]
        omega
      · rw [if_neg (fun h => ha h.1), if_neg (fun h : a = leafOf X i => ha h.symm)]
        omega
    · rw [if_neg hij, if_neg hij, if_neg (fun h => hij (h.1.trans h.2.symm))]

lemma computeAffinityMatrix_closed_form (X : List Nat) (i j : Nat)
    (hi : i < X.length) (hj : j < X.length) :
    computeAffinityMatrix X i j = if leafOf X i = leafOf X j then 1 else 0 := by
  have hget : leafOf X i = X.get ⟨i, hi⟩ := List.getD_eq_get X 0 hi
  have hmem : leafOf X i ∈ X := by
    rw [hget]
    exact List.get_mem X i hi
  have hdedup : leafOf X i ∈ X.dedup := List.mem_dedup.mpr hmem
  have hcount : X.dedup.count (leafOf X i) = 1 :=
    List.count_eq_one_of_mem X.nodup_dedup hdedup
  unfold computeAffinityMatrix
  rw [foldl_affStep_apply, hcount]
  simp

lemma computeAffinityMatrix_symm (X : List Nat) (i j : Nat) :
    computeAffinityMatrix X i j = computeAffinityMatrix X j i := by
  unfold computeAffinityMatrix
  rw [foldl_affStep_apply, foldl_affStep_apply]
  by_cases h : leafOf X i = leafOf X j
  · rw [if_pos h, if_pos h.symm, h]
  · rw [if_neg h, if_neg (fun hc => h hc.symm)]

/-- C1: for a fitted single tree on `n` training samples, the affinity matrix
computed from the leaf-assignment vector returned by `apply` (one leaf id per
sample, so `X_leaves` has length `n`) is symmetric, and every diagonal entry
inside the `n`-by-`n` shape equals 1: each sample shares its (unique) leaf
with itself, and the loop increments that leaf's block exactly once. -/
theorem affinity_matrix_symmetric_diag_one (X_leaves : List Nat) :
    (∀ i j, computeAffinityMatrix X_leaves i j = computeAffinityMatrix X_leaves j i)
    ∧ (∀ i, i < X_leaves.length → computeAffinityMatrix X_leaves i i = 1) := by
  constructor
  · intro i j
    exact computeAffinityMatrix_symm X_leaves i j
  · intro i hi
    rw [computeAffinityMatrix_closed_form X_leaves i i hi hi]
    simp

theorem affinity_matrix_symmetric_diag_one_witness :
    (0 < ([0, 0, 1] : List Nat).length)
    ∧ computeAffinityMatrix [0, 0, 1] 0 1 = computeAffinityMatrix [0, 0, 1] 1 0
    ∧ computeAffinityMatrix [0, 0, 1] 0 0 = 1 :=
  ⟨by decide, (affinity_matrix_symmetric_diag_one [0, 0, 1]).1 0 1,
    (affinity_matrix_symmetric_diag_one [0, 0, 1]).2 0 (by decide)⟩

/-- C10: the affinity matrix is invariant under any injective renaming of the
leaf-id values: it depends only on the partition of samples into leaves, not
on the numeric leaf ids. -/
theorem affinity_invariant_under_leaf_renaming (X_leaves : List Nat)
    (r : Nat → Nat) (hr : Function.Injective r) (i j : Nat)
    (hi : i < X_leaves.length) (hj : j < X_leaves.length) :
    computeAffinityMatrix (X_leaves.map r) i j = computeAffinityMatrix X_leaves i j := by
  have hi' : i < (X_leaves.map r).length := by
    rw [List.length_map]
    exact hi
  have hj' : j < (X_leaves.map r).length := by
    rw [List.length_map]
    exact hj
  rw [computeAffinityMatrix_closed_form _ i j hi' hj',
    computeAffinityMatrix_closed_form X_leaves i j hi hj]
  have hmapi : leafOf (X_leaves.map r) i = r (leafOf X_leaves i) := by
    rw [leafOf, leafOf, List.getD_eq_get _ 0 hi', List.getD_eq_get _ 0 hi]
    simp [List.get_map]
  have hmapj : leafOf (X_leaves.map r) j = r (leafOf X_leaves j) := by
    rw [leafOf, leafOf, List.getD_eq_get _ 0 hj', List.getD_eq_get _ 0 hj]
    simp [List.get_map]
  rw [hmapi, hmapj]
  by_cases h : leafOf X_leaves i = leafOf X_leaves j
  · simp [h]
  · have : r (leafOf X_leaves i) ≠ r (leafOf X_leaves j) := fun hc => h (hr hc)
    simp [h, this]

theorem affinity_invariant_under_leaf_renaming_witness :
    Function.Injective (fun n : Nat => n + 5)
    ∧ computeAffinityMatrix (([0, 0, 1] : List Nat).map (fun n => n + 5)) 0 1
        = computeAffinityMatrix [0, 0, 1] 0 1 :=
  ⟨fun a b h => Nat.add_right_cancel h,
    affinity_invariant_under_leaf_renaming [0, 0, 1] (fun n => n + 5)
      (fun a b h => Nat.add_right_cancel h) 0 1 (by decide) (by decide)⟩

/-! ### Criterion resolution, builder selection and the `fit` pipeline -/

/-- Criterion implementations of the Cython module `_unsup_criterion`:
`TwoMeans` (variance impurity) and `FastBIC` (BIC impurity), per the class
docstrings (`_classes.py` lines 39-43). -/
inductive CriterionKind
  | twoMeans
  | fastBIC
deriving DecidableEq

/-- The CRITERIA table, `_classes.py` line 25: it maps only the name
"twomeans" (the docstring additionally advertises "fastbic", which the
table does not contain). -/
def CRITERIA : List (String × CriterionKind) :=
  [("twomeans", CriterionKind.twoMeans)]

/-- Dictionary lookup `CRITERIA[name]`; `none` is Python's KeyError. -/
def lookupCriterion (name : String) : Option CriterionKind :=
  (CRITERIA.find? (fun p => p.1 == name)).map (fun p => p.2)

/-- The two tree-builder strategies of the Cython module `_unsup_tree`. -/
inductive BuilderKind
  | depthFirst
  | bestFirst
deriving DecidableEq

/-- Builder choice of `_build_tree` (`_classes.py` lines 214-233, and
identically lines 496-515 of the oblique variant): depth-first when the
resolved `max_leaf_nodes` is negative, best-first otherwise. -/
def selectBuilder (maxLeafNodes : Int) : BuilderKind :=
  if maxLeafNodes < 0 then BuilderKind.depthFirst else BuilderKind.bestFirst

/-- A criterion object: a Python-level identity (`objId`) plus its contents
(the criterion kind and any mutable internal state, abstracted as a `Nat`). -/
structure CritObj where
  objId : Nat
  kind : CriterionKind
  state : Nat
deriving DecidableEq

/-- The `criterion` constructor argument: a name string, or a stateful
`UnsupervisedCriterion` instance supplied by the user. -/
inductive CriterionArg
  | byName (name : String)
  | byInstance (obj : CritObj)
deriving DecidableEq

/-- Criterion resolution in `_build_tree` (`_classes.py` lines 194-200):
a name is looked up in CRITERIA and a fresh object is constructed; a
user-supplied instance is deep-copied — a newly allocated object (`fresh` is
its identity, distinct from every live object id by allocator freshness)
holding the same contents. -/
def resolveCriterion (arg : CriterionArg) (fresh : Nat) : Option CritObj :=
  match arg with
  | CriterionArg.byName s =>
      (lookupCriterion s).map (fun k => { objId := fresh, kind := k, state := 0 })
  | CriterionArg.byInstance obj => some { obj with objId := fresh }

/-- Key string reported by the KeyError of `CRITERIA[self.criterion]`. -/
def criterionKeyOf (arg : CriterionArg) : String :=
  match arg with
  | CriterionArg.byName s => s
  | CriterionArg.byInstance _ => ""

/-- Heap of criterion-object mutable states, keyed by object identity. -/
def CritStore := Nat → Nat

/-- The build mutates the criterion object handed to the splitter (the local
variable `criterion` of `_build_tree`): an arbitrary state update `f` applied
at that object's identity, all other objects untouched. -/
def buildMutateStore (critId : Nat) (f : Nat → Nat) (store : CritStore) :
    CritStore :=
  fun o => if o = critId then f (store o) else store o

/-- Modelled from the spec (section 3, data model): a node of the Cython Tree
(`_unsup_tree`, not under the given sources) — children indices (−1 for a
leaf), feature index or −1, threshold, depth. -/
structure TreeNode where
  leftChild : Int
  rightChild : Int
  feature : Int
  threshold : Int
  depth : Nat
deriving DecidableEq

/-- Modelled from the spec (section 3, data model): the Cython Tree, a flat
array of nodes; only its value equality matters for the claims below. -/
structure TreeModel where
  nFeatures : Nat
  nodes : List TreeNode
deriving DecidableEq

/-- Integer dtype of sparse-matrix index arrays: `np.intc` (int32) or int64. -/
inductive DtypeTag
  | intc
  | int64
deriving DecidableEq

/-- Index dtypes of a scipy sparse matrix (`indices` and `indptr`). -/
structure SparseMeta where
  indicesDtype : DtypeTag
  indptrDtype : DtypeTag
deriving DecidableEq

/-- The feature matrix; entries are abstracted as integers (no claim below
depends on feature-value arithmetic, only on the number of rows). -/
abbrev XMatrix := List (List Int)

/-- The `X` argument of `fit`: dense, or sparse with its index dtypes. -/
inductive InputX
  | dense (X : XMatrix)
  | sparse (X : XMatrix) (meta : SparseMeta)
deriving DecidableEq

/-- The row data of either input form. -/
def dataOf (input : InputX) : XMatrix :=
  match input with
  | InputX.dense X => X
  | InputX.sparse X _ => X

/-- Exceptions raised by `fit`. -/
inductive FitError
  | valueError (msg : String)
  | keyError (key : String)
deriving DecidableEq

/-- The estimator: constructor hyperparameters plus the attributes `fit`
sets (`tree_`, `affinity_matrix_`, `labels_`); `clusteringResolved` models
the `clustering_func_` attribute set by `_assign_labels`. -/
structure EstimatorState where
  criterionArg : CriterionArg
  maxLeafNodes : Option Int
  randomState : Option Nat
  tree_ : Option TreeModel
  affinity_matrix_ : Option (Nat → Nat → Nat)
  labels_ : Option (List Nat)
  clusteringResolved : Bool

/-- `UnsupervisedDecisionTree.__init__` (`_classes.py` lines 123-153): a
freshly constructed estimator has hyperparameters set, no fitted attributes. -/
def mkUnsupervisedDecisionTree (criterionArg : CriterionArg)
    (maxLeafNodes : Option Int) (randomState : Option Nat) : EstimatorState :=
  { criterionArg := criterionArg, maxLeafNodes := maxLeafNodes,
    randomState := randomState, tree_ := none, affinity_matrix_ := none,
    labels_ := none, clusteringResolved := false }

/-- Modelled from the spec (section 5): seed resolution — an integer
`random_state` fully determines the random stream; with None the stream is
seeded from ambient process entropy. -/
def resolveSeed (randomState : Option Nat) (entropy : Nat) : Nat :=
  match randomState with
  | some s => s
  | none => entropy

/-- The input check of `fit` (`_classes.py` lines 156-164): with
`check_input`, a sparse X whose `indices` or `indptr` dtype is not `np.intc`
is rejected. -/
def sparseIndexBad (checkInput : Bool) (input : InputX) : Bool :=
  checkInput &&
    match input with
    | InputX.sparse _ meta =>
        (meta.indicesDtype != DtypeTag.intc) || (meta.indptrDtype != DtypeTag.intc)
    | InputX.dense _ => false

/-- `UnsupervisedDecisionTree.fit` (`_classes.py` lines 155-179) composed
with `_build_tree` (lines 181-235).  The parts of the pipeline that are not
under the given sources are parameters: `build` is the Cython tree builder
(per spec section 5 a deterministic function of the criterion, builder
strategy, data, weights and seed), `applyFn` is Cython `Tree.apply`, and
`clusterFn` is the clustering callable used by `_assign_labels`.  Returns
the updated estimator and the raised error, if any; on an error the
estimator is returned unchanged, since the code raises before mutating
`self`. -/
def fitS (build : CriterionKind → BuilderKind → XMatrix → List Int → Nat → TreeModel)
    (applyFn : TreeModel → XMatrix → List Nat)
    (clusterFn : (Nat → Nat → Nat) → Nat → List Nat)
    (entropy : Nat) (checkInput : Bool) (input : InputX) (w : List Int)
    (est : EstimatorState) : EstimatorState × Option FitError :=
  if sparseIndexBad checkInput input then
    (est, some (FitError.valueError "No support for np.int64 index based sparse matrices"))
  else
    match resolveCriterion est.criterionArg 0 with
    | none => (est, some (FitError.keyError (criterionKeyOf est.criterionArg)))
    | some crit =>
        let mln : Int :=
          match est.maxLeafNodes with
          | none => -1
          | some k => k
        let bk := selectBuilder mln
        let seed := resolveSeed est.randomState entropy
        let tree := build crit.kind bk (dataOf input) w seed
        let nSamples := (dataOf input).length
        let leaves := applyFn tree (dataOf input)
        let aff := computeAffinityMatrix leaves
        let est1 := { est with tree_ := some tree, affinity_matrix_ := some aff }
        if 2 ≤ nSamples then
          let est2 : EstimatorState :=
            { est1 with
              labels_ := some (clusterFn aff nSamples)
              clusteringResolved := true }
          (est2, none)
        else
          (est1, none)

/-- `UnsupervisedDecisionTree.transform` (`_classes.py` lines 259-282):
requires a fitted estimator (`check_is_fitted`; `none` models the
NotFittedError path), applies the fitted tree to the new data and recomputes
the affinity matrix; the estimator state is returned unchanged. -/
def transformS (applyFn : TreeModel → XMatrix → List Nat)
    (est : EstimatorState) (X : XMatrix) :
    Option ((Nat → Nat → Nat) × EstimatorState) :=
  match est.tree_ with
  | none => none
  | some t => some (computeAffinityMatrix (applyFn t X), est)

/-- `UnsupervisedDecisionTree.predict` (`_classes.py` lines 237-257):
validates, transforms, then `_assign_labels`, which resolves the clustering
callable (setting `clustering_func_`, modelled by `clusteringResolved`) and
returns the labels without storing them on the estimator. -/
def predictS (applyFn : TreeModel → XMatrix → List Nat)
    (clusterFn : (Nat → Nat → Nat) → Nat → List Nat)
    (est : EstimatorState) (X : XMatrix) :
    Option (List Nat × EstimatorState) :=
  match transformS applyFn est X with
  | none => none
  | some (aff, est1) =>
      some (clusterFn aff X.length, { est1 with clusteringResolved := true })

/-- Modelled from the spec: one concrete instance of the Cython builder
signature, used only to instantiate witnesses of the parametric theorems:
a single root leaf recording the seed. -/
def specBuild : CriterionKind → BuilderKind → XMatrix → List Int → Nat → TreeModel :=
  fun _ _ X _ seed =>
    { nFeatures := (X.headD []).length,
      nodes := [{ leftChild := -1, rightChild := -1, feature := -1,
                  threshold := Int.ofNat seed, depth := 0 }] }

/-- Modelled from the spec: a concrete `apply` sending every sample to the
root leaf (id 0); used only to instantiate witnesses. -/
def specApply : TreeModel → XMatrix → List Nat :=
  fun _ X => X.map (fun _ => 0)

/-- Modelled from the spec: a concrete clustering callable assigning label 0
to every sample; used only to instantiate witnesses. -/
def specCluster : (Nat → Nat → Nat) → Nat → List Nat :=
  fun _ n => List.replicate n 0

/-! ### Theorems about the `fit` / `predict` / `transform` pipeline -/

/-- C3: `_build_tree` selects the builder strategy solely by the sign of the
resolved `max_leaf_nodes`: best-first whenever it is nonnegative (the value
was specified), depth-first whenever it is negative (the "unlimited"
sentinel). -/
theorem builder_choice_by_sign (m : Int) :
    (0 ≤ m → selectBuilder m = BuilderKind.bestFirst)
    ∧ (m < 0 → selectBuilder m = BuilderKind.depthFirst) := by
  constructor
  · intro h
    simp [selectBuilder, not_lt.mpr h]
  · intro h
    simp [selectBuilder, h]

theorem builder_choice_by_sign_witness :
    ((0 : Int) ≤ 5 ∧ selectBuilder 5 = BuilderKind.bestFirst)
    ∧ ((-1 : Int) < 0 ∧ selectBuilder (-1) = BuilderKind.depthFirst) :=
  ⟨⟨by decide, (builder_choice_by_sign 5).1 (by decide)⟩,
    ⟨by decide, (builder_choice_by_sign (-1)).2 (by decide)⟩⟩

/-- C6 fails on the code: the CRITERIA table (`_classes.py` line 25) maps
only "twomeans", although the class docstring (lines 39-43) documents
"fastbic" as the second supported criterion name.  With criterion="fastbic",
`CRITERIA[self.criterion]` in `_build_tree` raises a KeyError instead of
resolving a FastBIC criterion, so `fit` fails on a documented input. -/
theorem fastbic_lookup_fails :
    lookupCriterion "twomeans" = some CriterionKind.twoMeans
    ∧ lookupCriterion "fastbic" = none
    ∧ (fitS specBuild specApply specCluster 0 true
        (InputX.dense [[0], [1]]) []
        (mkUnsupervisedDecisionTree (CriterionArg.byName "fastbic") none (some 0))).2
      = some (FitError.keyError "fastbic") := by
  refine ⟨rfl, rfl, ?_⟩
  rfl

/-- C2: determinism of `fit` as a two-run property.  The ambient process
entropy is the only nondeterministic input of the modelled pipeline (spec
section 5); with `random_state` fixed to an integer it is ignored, so two
`fit` calls on freshly constructed estimators with identical criterion,
`max_leaf_nodes`, data, weights and `random_state` produce identical
results — in particular identical `tree_` and identical `labels_`. -/
theorem fit_deterministic_two_runs
    (build : CriterionKind → BuilderKind → XMatrix → List Int → Nat → TreeModel)
    (applyFn : TreeModel → XMatrix → List Nat)
    (clusterFn : (Nat → Nat → Nat) → Nat → List Nat)
    (seed entropy1 entropy2 : Nat) (checkInput : Bool)
    (input : InputX) (w : List Int) (arg : CriterionArg) (mln : Option Int) :
    fitS build applyFn clusterFn entropy1 checkInput input w
      (mkUnsupervisedDecisionTree arg mln (some seed))
    = fitS build applyFn clusterFn entropy2 checkInput input w
      (mkUnsupervisedDecisionTree arg mln (some seed)) :=
  rfl

/-- C4: no drift between the fit-time affinity matrix and a post-hoc
`transform`: after a successful `fit` on training data `X`, `transform` on
the same `X` succeeds and returns exactly the stored `affinity_matrix_`
(both are `_compute_affinity_matrix` of `apply` of the same fitted tree),
leaving the estimator unchanged. -/
theorem affinity_matrix_eq_transform_after_fit
    (build : CriterionKind → BuilderKind → XMatrix → List Int → Nat → TreeModel)
    (applyFn : TreeModel → XMatrix → List Nat)
    (clusterFn : (Nat → Nat → Nat) → Nat → List Nat)
    (entropy : Nat) (checkInput : Bool) (X : XMatrix) (w : List Int)
    (est : EstimatorState) (c : CritObj)
    (hcrit : resolveCriterion est.criterionArg 0 = some c) :
    (fitS build applyFn clusterFn entropy checkInput (InputX.dense X) w est).2 = none
    ∧ ∃ aff,
      (fitS build applyFn clusterFn entropy checkInput (InputX.dense X) w
        est).1.affinity_matrix_ = some aff
      ∧ transformS applyFn
          (fitS build applyFn clusterFn entropy checkInput (InputX.dense X) w est).1 X
        = some (aff,
            (fitS build applyFn clusterFn entropy checkInput (InputX.dense X) w est).1) := by
  have hbad : sparseIndexBad checkInput (InputX.dense X) = false := by
    cases checkInput <;> rfl
  unfold fitS
  rw [hbad, hcrit]
  simp only [Bool.false_eq_true, if_false]
  by_cases h2 : 2 ≤ (dataOf (InputX.dense X)).length
  · rw [if_pos h2]
    exact ⟨rfl, _, rfl, rfl⟩
  · rw [if_neg h2]
    exact ⟨rfl, _, rfl, rfl⟩

theorem affinity_matrix_eq_transform_after_fit_witness :
    resolveCriterion
        (mkUnsupervisedDecisionTree (CriterionArg.byName "twomeans") none
          (some 0)).criterionArg 0
      = some { objId := 0, kind := CriterionKind.twoMeans, state := 0 }
    ∧ ((fitS specBuild specApply specCluster 0 true (InputX.dense [[0], [1]]) []
        (mkUnsupervisedDecisionTree (CriterionArg.byName "twomeans") none (some 0))).2 = none
      ∧ ∃ aff,
        (fitS specBuild specApply specCluster 0 true (InputX.dense [[0], [1]]) []
          (mkUnsupervisedDecisionTree (CriterionArg.byName "twomeans") none
            (some 0))).1.affinity_matrix_ = some aff
        ∧ transformS specApply
            (fitS specBuild specApply specCluster 0 true (InputX.dense [[0], [1]]) []
              (mkUnsupervisedDecisionTree (CriterionArg.byName "twomeans") none
                (some 0))).1 [[0], [1]]
          = some (aff,
              (fitS specBuild specApply specCluster 0 true (InputX.dense [[0], [1]]) []
                (mkUnsupervisedDecisionTree (CriterionArg.byName "twomeans") none
                  (some 0))).1)) :=
  ⟨rfl,
    affinity_matrix_eq_transform_after_fit specBuild specApply specCluster 0 true
      [[0], [1]] []
      (mkUnsupervisedDecisionTree (CriterionArg.byName "twomeans") none (some 0))
      { objId := 0, kind := CriterionKind.twoMeans, state := 0 } rfl⟩

/-- C5: when the criterion resolves, `fit` completes without raising for any
number of (validated) samples; it sets `labels_` exactly when there are at
least 2 samples, and with fewer than 2 samples label assignment is skipped,
leaving `labels_` unset on the freshly constructed estimator. -/
theorem fit_labels_iff_two_samples
    (build : CriterionKind → BuilderKind → XMatrix → List Int → Nat → TreeModel)
    (applyFn : TreeModel → XMatrix → List Nat)
    (clusterFn : (Nat → Nat → Nat) → Nat → List Nat)
    (entropy : Nat) (checkInput : Bool) (X : XMatrix) (w : List Int)
    (arg : CriterionArg) (mln : Option Int) (rs : Option Nat) (c : CritObj)
    (hcrit : resolveCriterion arg 0 = some c) :
    (fitS build applyFn clusterFn entropy checkInput (InputX.dense X) w
      (mkUnsupervisedDecisionTree arg mln rs)).2 = none
    ∧ (X.length < 2 →
        (fitS build applyFn clusterFn entropy checkInput (InputX.dense X) w
          (mkUnsupervisedDecisionTree arg mln rs)).1.labels_ = none)
    ∧ (2 ≤ X.length →
        (fitS build applyFn clusterFn entropy checkInput (InputX.dense X) w
          (mkUnsupervisedDecisionTree arg mln rs)).1.labels_.isSome = true) := by
  have hbad : sparseIndexBad checkInput (InputX.dense X) = false := by
    cases checkInput <;> rfl
  have harg : (mkUnsupervisedDecisionTree arg mln rs).criterionArg = arg := rfl
  have hdlen : (dataOf (InputX.dense X)).length = X.length := rfl
  unfold fitS
  rw [hbad, harg, hcrit]
  simp only [Bool.false_eq_true, if_false]
  by_cases h2 : 2 ≤ (dataOf (InputX.dense X)).length
  · rw [if_pos h2]
    exact ⟨rfl, fun hlt => absurd h2 (by omega), fun _ => rfl⟩
  · rw [if_neg h2]
    refine ⟨rfl, fun _ => rfl, fun hge => absurd hge (by omega)⟩

theorem fit_labels_iff_two_samples_witness :
    resolveCriterion (CriterionArg.byName "twomeans") 0
      = some { objId := 0, kind := CriterionKind.twoMeans, state := 0 }
    ∧ (([[0]] : XMatrix).length < 2
      ∧ (fitS specBuild specApply specCluster 0 true (InputX.dense [[0]]) []
          (mkUnsupervisedDecisionTree (CriterionArg.byName "twomeans") none
            (some 0))).1.labels_ = none)
    ∧ (2 ≤ ([[0], [1]] : XMatrix).length
      ∧ (fitS specBuild specApply specCluster 0 true (InputX.dense [[0], [1]]) []
          (mkUnsupervisedDecisionTree (CriterionArg.byName "twomeans") none
            (some 0))).1.labels_.isSome = true) :=
  ⟨rfl,
    ⟨by decide,
      (fit_labels_iff_two_samples specBuild specApply specCluster 0 true [[0]] []
        (CriterionArg.byName "twomeans") none (some 0)
        { objId := 0, kind := CriterionKind.twoMeans, state := 0 } rfl).2.1
        (by decide)⟩,
    ⟨by decide,
      (fit_labels_iff_two_samples specBuild specApply specCluster 0 true [[0], [1]] []
        (CriterionArg.byName "twomeans") none (some 0)
        { objId := 0, kind := CriterionKind.twoMeans, state := 0 } rfl).2.2
        (by decide)⟩⟩

/-- C7: with `check_input=True` and a sparse `X` whose `indices` or `indptr`
dtype is int64 rather than `np.intc`, `fit` raises the ValueError for
unsupported sparse index width, and the estimator comes back exactly as it
went in: the raise happens before `super().fit` is reached, so no tree state
is created or mutated and the builder is never invoked. -/
theorem sparse_int64_raises_before_build
    (build : CriterionKind → BuilderKind → XMatrix → List Int → Nat → TreeModel)
    (applyFn : TreeModel → XMatrix → List Nat)
    (clusterFn : (Nat → Nat → Nat) → Nat → List Nat)
    (entropy : Nat) (X : XMatrix) (meta : SparseMeta) (w : List Int)
    (est : EstimatorState)
    (hbad : meta.indicesDtype = DtypeTag.int64 ∨ meta.indptrDtype = DtypeTag.int64) :
    fitS build applyFn clusterFn entropy true (InputX.sparse X meta) w est
      = (est, some (FitError.valueError
          "No support for np.int64 index based sparse matrices")) := by
  have hcond : sparseIndexBad true (InputX.sparse X meta) = true := by
    rcases meta with ⟨d1, d2⟩
    rcases hbad with h | h
    · cases d1
      · cases h
      · rfl
    · cases d2
      · cases h
      · cases d1 <;> rfl
  unfold fitS
  rw [hcond]
  rfl

theorem sparse_int64_raises_before_build_witness :
    ((⟨DtypeTag.int64, DtypeTag.intc⟩ : SparseMeta).indicesDtype = DtypeTag.int64
      ∨ (⟨DtypeTag.int64, DtypeTag.intc⟩ : SparseMeta).indptrDtype = DtypeTag.int64)
    ∧ fitS specBuild specApply specCluster 0 true
        (InputX.sparse [[0], [1]] ⟨DtypeTag.int64, DtypeTag.intc⟩) []
        (mkUnsupervisedDecisionTree (CriterionArg.byName "twomeans") none (some 0))
      = (mkUnsupervisedDecisionTree (CriterionArg.byName "twomeans") none (some 0),
          some (FitError.valueError
            "No support for np.int64 index based sparse matrices")) :=
  ⟨Or.inl rfl,
    sparse_int64_raises_before_build specBuild specApply specCluster 0
      [[0], [1]] ⟨DtypeTag.int64, DtypeTag.intc⟩ []
      (mkUnsupervisedDecisionTree (CriterionArg.byName "twomeans") none (some 0))
      (Or.inl rfl)⟩

/-- C8: a user-supplied criterion instance is deep-copied in `_build_tree`:
the resolution succeeds and yields a distinct object (fresh identity) with
equal contents, and any state mutation the build performs on the splitter's
criterion object leaves the user's object untouched. -/
theorem user_criterion_not_aliased (obj : CritObj) (fresh : Nat)
    (hfresh : obj.objId ≠ fresh) (f : Nat → Nat) (store : CritStore) :
    ∃ c, resolveCriterion (CriterionArg.byInstance obj) fresh = some c
      ∧ c.objId ≠ obj.objId
      ∧ c.kind = obj.kind ∧ c.state = obj.state
      ∧ buildMutateStore c.objId f store obj.objId = store obj.objId := by
  refine ⟨{ obj with objId := fresh }, rfl, fun h => hfresh h.symm, rfl, rfl, ?_⟩
  unfold buildMutateStore
  rw [if_neg hfresh]

theorem user_criterion_not_aliased_witness :
    (({ objId := 1, kind := CriterionKind.twoMeans, state := 7 } : CritObj).objId ≠ 2)
    ∧ ∃ c, resolveCriterion
        (CriterionArg.byInstance
          { objId := 1, kind := CriterionKind.twoMeans, state := 7 }) 2 = some c
      ∧ c.objId ≠ ({ objId := 1, kind := CriterionKind.twoMeans, state := 7 } : CritObj).objId
      ∧ c.kind = CriterionKind.twoMeans ∧ c.state = 7
      ∧ buildMutateStore c.objId (fun s => s + 1) (fun _ => 0) 1 = (fun _ => (0 : Nat)) 1 :=
  ⟨by decide,
    user_criterion_not_aliased
      { objId := 1, kind := CriterionKind.twoMeans, state := 7 } 2 (by decide)
      (fun s => s + 1) (fun _ => 0)⟩

/-- C9: frame effect of the read-only methods: on a fitted estimator both
`transform` and `predict` succeed, and neither changes `tree_`,
`affinity_matrix_` or `labels_` — they only re-run traversal plus affinity
computation (and, for `predict`, the clustering callable) on the new data,
with no retraining. -/
theorem predict_transform_leave_fitted_state
    (applyFn : TreeModel → XMatrix → List Nat)
    (clusterFn : (Nat → Nat → Nat) → Nat → List Nat)
    (est : EstimatorState) (t : TreeModel) (X : XMatrix)
    (hfit : est.tree_ = some t) :
    (∃ aff est1, transformS applyFn est X = some (aff, est1)
      ∧ est1.tree_ = est.tree_
      ∧ est1.affinity_matrix_ = est.affinity_matrix_
      ∧ est1.labels_ = est.labels_)
    ∧ (∃ labs est2, predictS applyFn clusterFn est X = some (labs, est2)
      ∧ est2.tree_ = est.tree_
      ∧ est2.affinity_matrix_ = est.affinity_matrix_
      ∧ est2.labels_ = est.labels_) := by
  unfold predictS transformS
  rw [hfit]
  exact ⟨⟨_, est, rfl, hfit, rfl, rfl⟩, ⟨_, _, rfl, hfit, rfl, rfl⟩⟩

theorem predict_transform_leave_fitted_state_witness :
    ({ criterionArg := CriterionArg.byName "twomeans", maxLeafNodes := none,
       randomState := none, tree_ := some { nFeatures := 1, nodes := [] },
       affinity_matrix_ := none, labels_ := none,
       clusteringResolved := false } : EstimatorState).tree_
      = some { nFeatures := 1, nodes := [] }
    ∧ ((∃ aff est1, transformS specApply
          { criterionArg := CriterionArg.byName "twomeans", maxLeafNodes := none,
            randomState := none, tree_ := some { nFeatures := 1, nodes := [] },
            affinity_matrix_ := none, labels_ := none,
            clusteringResolved := false } [[0]] = some (aff, est1)
        ∧ est1.tree_ = some { nFeatures := 1, nodes := [] }
        ∧ est1.affinity_matrix_ = none
        ∧ est1.labels_ = none)
      ∧ (∃ labs est2, predictS specApply specCluster
          { criterionArg := CriterionArg.byName "twomeans", maxLeafNodes := none,
            randomState := none, tree_ := some { nFeatures := 1, nodes := [] },
            affinity_matrix_ := none, labels_ := none,
            clusteringResolved := false } [[0]] = some (labs, est2)
        ∧ est2.tree_ = some { nFeatures := 1, nodes := [] }
        ∧ est2.affinity_matrix_ = none
        ∧ est2.labels_ = none)) :=
  ⟨rfl,
    predict_transform_leave_fitted_state specApply specCluster
      { criterionArg := CriterionArg.byName "twomeans", maxLeafNodes := none,
        randomState := none, tree_ := some { nFeatures := 1, nodes := [] },
        affinity_matrix_ := none, labels_ := none,
        clusteringResolved := false }
      { nFeatures := 1, nodes := [] } [[0]] rfl⟩

end SkTree
